import Mathlib

/-!
Shallow embedding of the hostel administration backend
(`src/models.py` and `src/app.py`).

Monetary values (`fee`, `amount`, `price`, salaries) are Python floats in
the source; they are embedded as rationals (`ℚ`), which is faithful for
the comparison-and-sum logic the claims are about.  Dates are embedded as
plain records of year/month/day; the database is a record of lists, one
per relevant table, together with the autoincrement counters.  Each HTTP
handler becomes a pure function from the database and the (already
JSON-parsed) request fields to a response paired with the new database;
an error response always leaves the database unchanged, mirroring the
rollback-on-error / no-commit behaviour of the Flask handlers.
-/

namespace Hostel

/-- A calendar date, as produced by `datetime.strptime(..., "%Y-%m-%d")`. -/
structure PDate where
  year : Nat
  month : Nat
  day : Nat
deriving DecidableEq

/-- `Room` model (`models.py`): `room_number` unique, `capacity` int. -/
structure Room where
  id : Nat
  room_number : Nat
  capacity : Nat
deriving DecidableEq

/-- `Student` model (`models.py`).  `room_id` is stored as the raw integer
taken from the request (`int(data["room_id"])`), hence `Int`. -/
structure Student where
  id : Nat
  name : String
  fee : ℚ
  room_id : Int
  status : String
  fee_status : String
  last_fee_payment : Option PDate
deriving DecidableEq

/-- `FeeRecord` model (`models.py`).  `student_id` comes from the raw JSON
integer in `collect_fee`, hence `Int`. -/
structure FeeRecord where
  id : Nat
  student_id : Int
  amount : ℚ
  date_paid : PDate
  month_year : String
  payment_method : String
deriving DecidableEq

/-- `Employee` model (`models.py`). -/
structure Employee where
  id : Nat
  name : String
  position : String
  base_salary : ℚ
  status : String
deriving DecidableEq

/-- `SalaryRecord` model (`models.py`). -/
structure SalaryRecord where
  id : Nat
  employee_id : Nat
  month_year : String
  amount_paid : ℚ
  payment_method : String
  notes : String
deriving DecidableEq

/-- `Expense` model (`models.py`): `user_id` is the acting admin's id. -/
structure Expense where
  id : Nat
  item_name : String
  price : ℚ
  date : PDate
  user_id : Nat
deriving DecidableEq

/-- The relational store: one list per table plus autoincrement counters. -/
structure DB where
  rooms : List Room
  students : List Student
  fee_records : List FeeRecord
  employees : List Employee
  salary_records : List SalaryRecord
  expenses : List Expense
  nextStudentId : Nat
  nextFeeRecordId : Nat
  nextSalaryId : Nat
  nextExpenseId : Nat
deriving DecidableEq

/-- A JSON response: `ok msg` for a success payload, `err status msg` for
an error with its HTTP status code. -/
inductive Resp where
  | ok (msg : String)
  | err (status : Nat) (msg : String)
deriving DecidableEq

/-- `len(room.students)`: number of students whose `room_id` equals the
given id, independent of their `status` (the relationship in `models.py`
joins on `room_id` only). -/
def occupancy (db : DB) (rid : Int) : Nat :=
  (db.students.filter (fun s => s.room_id == rid)).length

/-- `Room.query.get(room_id)`: primary-key lookup. -/
def roomById (db : DB) (rid : Int) : Option Room :=
  db.rooms.find? (fun rm => (rm.id : Int) == rid)

/-- Replace the first student whose `id` matches (the ORM mutates the row
fetched by primary key). -/
def replaceById (l : List Student) (sid : Nat) (st : Student) : List Student :=
  match l with
  | [] => []
  | x :: xs => if x.id == sid then st :: xs else x :: replaceById xs sid st

/-- `"%02d"`-style zero padding used by `strftime("%m")`. -/
def pad2 (n : Nat) : String :=
  if n < 10 then "0" ++ toString n else toString n

/-- `"%04d"`-style zero padding used by `strftime("%Y")`. -/
def pad4 (n : Nat) : String :=
  if n < 10 then "000" ++ toString n
  else if n < 100 then "00" ++ toString n
  else if n < 1000 then "0" ++ toString n
  else toString n

/-- `date.strftime("%Y-%m")`, the `month_year` partition key. -/
def monthYearStr (d : PDate) : String :=
  pad4 d.year ++ "-" ++ pad2 d.month

/-- Fee records of one student dated inside one calendar month: the
`FeeRecord.query.filter(student_id == ..., extract(month) == ...,
extract(year) == ...)` query shared by `computed_fee_status`,
`remaining_fee` and `collect_fee`. -/
def monthRecords (recs : List FeeRecord) (sid : Int) (m y : Nat) : List FeeRecord :=
  recs.filter (fun r => r.student_id == sid && r.date_paid.month == m && r.date_paid.year == y)

/-- `total_paid = sum(record.amount for record in ...)` over one month. -/
def sumMonth (recs : List FeeRecord) (sid : Int) (m y : Nat) : ℚ :=
  ((monthRecords recs sid m y).map (fun r => r.amount)).sum

/-- The read-side classification in `Student.computed_fee_status`
(`models.py` lines 77-82): `total == 0` → unpaid, `total < fee` →
partial, otherwise paid. -/
def classifyRead (total fee : ℚ) : String :=
  if total = 0 then "unpaid"
  else if total < fee then "partial"
  else "paid"

/-- `Student.computed_fee_status` (`models.py`): classify the current
month's payment total against the student's fee. -/
def computed_fee_status (recs : List FeeRecord) (sid : Int) (fee : ℚ) (m y : Nat) : String :=
  classifyRead (sumMonth recs sid m y) fee

/-- `Student.remaining_fee` (`models.py` lines 84-94):
`max(0, self.fee - total_paid)` over the current month. -/
def remaining_fee (recs : List FeeRecord) (sid : Int) (fee : ℚ) (m y : Nat) : ℚ :=
  max 0 (fee - sumMonth recs sid m y)

/-- The write-side classification in `collect_fee` (`app.py` lines
1220-1225): `total >= fee` → paid, `total > 0` → partial, else unpaid. -/
def collectFeeClassify (total fee : ℚ) : String :=
  if fee ≤ total then "paid"
  else if 0 < total then "partial"
  else "unpaid"

/-- `POST /collect-fee` (`app.py` lines 1194-1232).  Arguments are the
JSON fields; `none` models an absent field.  The handler checks only
Python truthiness of the three fields, inserts the `FeeRecord`, and —
only if the student id resolves — recomputes and stores the month's fee
status (the freshly added record is visible to the aggregate query via
session autoflush) and stamps `last_fee_payment`. -/
def collect_fee (db : DB) (student_id : Option Int) (amount : Option ℚ)
    (date : Option PDate) : Resp × DB :=
  match student_id, amount, date with
  | some sid, some a, some d =>
    if sid = 0 ∨ a = 0 then
      (.err 400 "Student ID, amount, and date are required", db)
    else
      let fr : FeeRecord :=
        { id := db.nextFeeRecordId, student_id := sid, amount := a, date_paid := d,
          month_year := monthYearStr d, payment_method := "cash" }
      let recs' := db.fee_records ++ [fr]
      let students' :=
        match db.students.find? (fun s => (s.id : Int) == sid) with
        | none => db.students
        | some st =>
          let total := sumMonth recs' sid d.month d.year
          replaceById db.students st.id
            { st with fee_status := collectFeeClassify total st.fee,
                      last_fee_payment := some d }
      (.ok "Fee collected successfully",
        { db with fee_records := recs', students := students',
                  nextFeeRecordId := db.nextFeeRecordId + 1 })
  | _, _, _ => (.err 400 "Student ID, amount, and date are required", db)

/-- `POST /api/students` (`app.py` lines 885-921).  Fields are checked
for Python truthiness, then the room id range, room existence and room
capacity; on success the student row is inserted with status `active`
(and the model default `fee_status = "unpaid"`). -/
def api_students_post (db : DB) (name : Option String) (fee : Option ℚ)
    (room_id : Option Int) : Resp × DB :=
  match name, fee, room_id with
  | some nm, some f, some rid =>
    if nm = "" ∨ f = 0 ∨ rid = 0 then
      (.err 400 "Name, fee, and room_id are required", db)
    else if rid < 1 ∨ rid > 18 then
      (.err 400 "Room ID must be between 1 and 18", db)
    else
      match roomById db rid with
      | none => (.err 404 s!"Room {rid} not found", db)
      | some room =>
        if room.capacity ≤ occupancy db rid then
          (.err 400 s!"Room {rid} is at full capacity ({room.capacity} students)", db)
        else
          let st : Student :=
            { id := db.nextStudentId, name := nm, fee := f, room_id := rid,
              status := "active", fee_status := "unpaid", last_fee_payment := none }
          (.ok "Student enrolled successfully",
            { db with students := db.students ++ [st],
                      nextStudentId := db.nextStudentId + 1 })
  | _, _, _ => (.err 400 "Name, fee, and room_id are required", db)

/-- `if "name" in data: student.name = data["name"]`. -/
def applyName (st : Student) : Option String → Student
  | some nm => { st with name := nm }
  | none => st

/-- `if "fee" in data: student.fee = data["fee"]`. -/
def applyFee (st : Student) : Option ℚ → Student
  | some f => { st with fee := f }
  | none => st

/-- `if "status" in data: student.status = data["status"]`. -/
def applyStatus (st : Student) : Option String → Student
  | some s2 => { st with status := s2 }
  | none => st

/-- `PUT /api/students/<id>` (`app.py` lines 928-970).  `none` models an
absent JSON key (`"name" in data` is a presence check).  The room branch:
range check, room lookup, capacity check only when the destination room
differs from the current one, then the (possibly trivial) reassignment. -/
def api_update_student (db : DB) (sid : Nat) (name : Option String)
    (fee : Option ℚ) (room_id : Option Int) (status : Option String) : Resp × DB :=
  match db.students.find? (fun s => s.id == sid) with
  | none => (.err 404 "Not Found", db)
  | some st0 =>
    let st2 := applyFee (applyName st0 name) fee
    match room_id with
    | some rid =>
      if rid < 1 ∨ rid > 18 then
        (.err 400 "Room ID must be between 1 and 18", db)
      else
        match roomById db rid with
        | none => (.err 404 s!"Room {rid} not found", db)
        | some newRoom =>
          if st2.room_id ≠ rid ∧ newRoom.capacity ≤ occupancy db rid then
            (.err 400 s!"Room {rid} is at full capacity ({newRoom.capacity} students)", db)
          else
            (.ok "Student updated successfully",
              { db with students :=
                  replaceById db.students sid (applyStatus { st2 with room_id := rid } status) })
    | none =>
      (.ok "Student updated successfully",
        { db with students := replaceById db.students sid (applyStatus st2 status) })

/-- `DELETE /api/students/<id>` (`app.py` lines 933-944): delete every
`FeeRecord` of the student, then the student row itself (primary keys are
unique, so deleting the fetched row removes the row with that id). -/
def api_delete_student (db : DB) (sid : Nat) : Resp × DB :=
  match db.students.find? (fun s => s.id == sid) with
  | none => (.err 404 "Not Found", db)
  | some _ =>
    (.ok "Student deleted successfully",
      { db with
          fee_records := db.fee_records.filter (fun r => r.student_id != (sid : Int)),
          students := db.students.filter (fun s => s.id != sid) })

/-- One row of the bulk-upload spreadsheet, after the tabular reader:
`fee = none` models a cell `float(...)` fails on, `room_id = none` a cell
`int(...)` fails on. -/
structure BulkRow where
  name : String
  fee : Option ℚ
  room_id : Option Int
deriving DecidableEq

/-- Python `str.strip()`: drop leading and trailing whitespace
(implemented over the character list so that it evaluates by kernel
reduction). -/
def pyStrip (s : String) : String :=
  String.mk (((s.data.dropWhile Char.isWhitespace).reverse.dropWhile Char.isWhitespace).reverse)

/-- Python `str.lower()` (ASCII case folding, as in the names at play). -/
def pyLower (s : String) : String :=
  String.mk (s.data.map Char.toLower)

/-- `str(row.get("name", "")).strip()`. -/
def effName (row : BulkRow) : String := pyStrip row.name

/-- `Student.query.filter_by(name=name).first()` as a Bool. -/
def studentNameExists (db : DB) (nm : String) : Bool :=
  db.students.any (fun s => s.name == nm)

/-- Row validation of `bulk_upload_students` (`app.py` lines 1096-1129),
in source order: empty/`nan` name, duplicate inside the file, duplicate
in the database, fee parse and positivity, room id parse and range, room
existence, capacity. -/
def bulkValidate (db : DB) (seen : List String) (row : BulkRow) :
    Except String (String × ℚ × Int) :=
  let name := effName row
  if name = "" ∨ pyLower name = "nan" then .error "name is required"
  else if seen.contains name then .error "duplicate name within file"
  else if studentNameExists db name then .error "student with this name already exists"
  else
    match row.fee with
    | none => .error "fee must be a number"
    | some fee =>
      if fee ≤ 0 then .error "fee must be greater than 0"
      else
        match row.room_id with
        | none => .error "room_id must be an integer"
        | some rid =>
          if rid < 1 ∨ rid > 18 then .error "room_id must be between 1 and 18"
          else
            match roomById db rid with
            | none => .error s!"room {rid} not found"
            | some room =>
              if room.capacity ≤ occupancy db rid then
                .error s!"room {rid} is full (capacity {room.capacity})"
              else .ok (name, fee, rid)

/-- One iteration of the row loop: on success the student is committed
immediately and the name recorded in `seen_names`; on failure the
database is rolled back (unchanged) and the message returned. -/
def bulkStep (db : DB) (seen : List String) (row : BulkRow) :
    DB × List String × Option String :=
  match bulkValidate db seen row with
  | .error msg => (db, seen, some msg)
  | .ok (name, fee, rid) =>
    let st : Student :=
      { id := db.nextStudentId, name := name, fee := fee, room_id := rid,
        status := "active", fee_status := "unpaid", last_fee_payment := none }
    ({ db with students := db.students ++ [st], nextStudentId := db.nextStudentId + 1 },
      name :: seen, none)

/-- The summary object returned by `bulk_upload_students`. -/
structure BulkSummary where
  total_processed : Nat
  success_count : Nat
  errors : List String
deriving DecidableEq

/-- `f"Row {row_num}: {err}"` with `row_num = idx + 2` (`idx` is the
0-based data row index; row 1 of the spreadsheet is the header). -/
def rowErr (idx : Nat) (m : String) : String :=
  let rowNum := idx + 2
  s!"Row {rowNum}: {m}"

/-- The `for idx, row in df.iterrows()` loop; `idx` is the 0-based data
row index and errors are reported as `Row {idx + 2}` (row 1 being the
header). -/
def bulkLoop (db : DB) (seen : List String) (idx : Nat) :
    List BulkRow → DB × BulkSummary
  | [] => (db, { total_processed := 0, success_count := 0, errors := [] })
  | row :: rest =>
    match bulkStep db seen row with
    | (db', seen', e) =>
      let r := bulkLoop db' seen' (idx + 1) rest
      match e with
      | none =>
        (r.1, { total_processed := r.2.total_processed + 1,
                success_count := r.2.success_count + 1, errors := r.2.errors })
      | some m =>
        (r.1, { total_processed := r.2.total_processed + 1,
                success_count := r.2.success_count,
                errors := rowErr idx m :: r.2.errors })

/-- `POST /api/students/bulk-upload` (`app.py` lines 1053-1162), row
loop only (file decoding is outside the core). -/
def bulk_upload_students (db : DB) (rows : List BulkRow) : DB × BulkSummary :=
  bulkLoop db [] 0 rows

/-- The database/seen-names state after a prefix of the bulk row loop. -/
def bulkRun (db : DB) (seen : List String) : List BulkRow → DB × List String
  | [] => (db, seen)
  | row :: rest =>
    let r := bulkStep db seen row
    bulkRun r.1 r.2.1 rest

/-- Per-row outcomes of the bulk loop (`none` = row persisted,
`some msg` = row failed with that validation message). -/
def bulkOutcomes (db : DB) (seen : List String) : List BulkRow → List (Option String)
  | [] => []
  | row :: rest =>
    let r := bulkStep db seen row
    r.2.2 :: bulkOutcomes r.1 r.2.1 rest

/-- `str.split("-")` over the character list (structural recursion so it
evaluates by kernel reduction). -/
def splitDashAux : List Char → List Char → List (List Char)
  | [], acc => [acc.reverse]
  | c :: rest, acc =>
    if c = '-' then acc.reverse :: splitDashAux rest []
    else splitDashAux rest (c :: acc)

/-- Python `int(...)` on a split fragment: defined on nonempty
all-digit fragments, `none` models the `ValueError` path. -/
def digitsToNat? (l : List Char) : Option Nat :=
  if l = [] then none
  else if l.all Char.isDigit then
    some (l.foldl (fun n c => n * 10 + (c.toNat - 48)) 0)
  else none

/-- `year, month = month_year.split("-")` followed by
`datetime(int(year), int(month), 1)`; `none` models the `ValueError`
path of either step (caught by the handler's blanket `except`, which
rolls back). -/
def parseMonthYear (s : String) : Option (Nat × Nat) :=
  match splitDashAux s.data [] with
  | [ys, ms] =>
    match digitsToNat? ys, digitsToNat? ms with
    | some yy, some mm =>
      if 1 ≤ mm ∧ mm ≤ 12 ∧ 1 ≤ yy ∧ yy ≤ 9999 then some (yy, mm) else none
    | _, _ => none
  | _ => none

/-- `f"Salary paid to {employee.name} ({employee.position})"`, the
generated description shared by `add_salary_payment` and
`delete_salary_payment`. -/
def salaryExpenseName (emp : Employee) : String :=
  s!"Salary paid to {emp.name} ({emp.position})"

/-- `POST /api/employees/<id>/salaries` (`app.py` lines 1382-1418):
employee lookup, required-field presence, the pre-insert existence check
on `(employee_id, month_year)`, then the `SalaryRecord` insert together
with the synthesized `Expense` row tagged with the acting admin's id. -/
def add_salary_payment (db : DB) (adminId : Nat) (eid : Nat)
    (month_year : Option String) (amount_paid : Option ℚ)
    (payment_method : String) (notes : String) : Resp × DB :=
  match db.employees.find? (fun e => e.id == eid) with
  | none => (.err 404 "Not Found", db)
  | some emp =>
    match month_year, amount_paid with
    | some my, some amt =>
      if db.salary_records.any (fun r => r.employee_id == eid && r.month_year == my) then
        (.err 400 "Salary already paid for this month", db)
      else
        match parseMonthYear my with
        | none => (.err 500 "invalid month_year", db)
        | some ym =>
          let sr : SalaryRecord :=
            { id := db.nextSalaryId, employee_id := eid, month_year := my,
              amount_paid := amt, payment_method := payment_method, notes := notes }
          let ex : Expense :=
            { id := db.nextExpenseId, item_name := salaryExpenseName emp,
              price := amt, date := ⟨ym.1, ym.2, 1⟩, user_id := adminId }
          (.ok "Salary payment recorded successfully",
            { db with salary_records := db.salary_records ++ [sr],
                      expenses := db.expenses ++ [ex],
                      nextSalaryId := db.nextSalaryId + 1,
                      nextExpenseId := db.nextExpenseId + 1 })
    | _, _ => (.err 400 "Missing required fields", db)

/-- `DELETE /api/salaries/<id>` (`app.py` lines 1439-1454): rebuild the
generated description from the record's employee, find the first expense
matching description, amount, and the acting admin's id, delete it if
present, then delete the salary record. -/
def delete_salary_payment (db : DB) (adminId : Nat) (salary_id : Nat) : Resp × DB :=
  match db.salary_records.find? (fun r => r.id == salary_id) with
  | none => (.err 404 "Not Found", db)
  | some sr =>
    match db.employees.find? (fun e => e.id == sr.employee_id) with
    | none => (.err 500 "missing employee", db)
    | some emp =>
      let ename := salaryExpenseName emp
      (.ok "Salary payment deleted successfully",
        { db with
            expenses := db.expenses.eraseP
              (fun ex => ex.item_name == ename && ex.price == sr.amount_paid
                          && ex.user_id == adminId),
            salary_records := db.salary_records.filter (fun r => r.id != salary_id) })

/-- The room-capacity invariant of §8: no room ever holds more students
than its capacity. -/
def RoomCap (db : DB) : Prop :=
  ∀ rm ∈ db.rooms, occupancy db (rm.id : Int) ≤ rm.capacity

/-- §4.3: at most one salary payment per `(employee, month_year)` pair. -/
def AtMostOnePerPair (db : DB) : Prop :=
  db.salary_records.Pairwise
    (fun a b => ¬(a.employee_id = b.employee_id ∧ a.month_year = b.month_year))

/-! ### Helper lemmas -/

theorem sumMonth_nonneg (recs : List FeeRecord) (sid : Int) (m y : Nat)
    (h : ∀ r ∈ recs, 0 ≤ r.amount) : 0 ≤ sumMonth recs sid m y := by
  unfold sumMonth monthRecords
  apply List.sum_nonneg
  intro x hx
  simp only [List.mem_map, List.mem_filter] at hx
  obtain ⟨r, ⟨hr, _⟩, rfl⟩ := hx
  exact h r hr

theorem classifyRead_spec (total fee : ℚ) (hfee : 0 < fee) (htot : 0 ≤ total) :
    (classifyRead total fee = "unpaid" ↔ total = 0) ∧
    (classifyRead total fee = "partial" ↔ 0 < total ∧ total < fee) ∧
    (classifyRead total fee = "paid" ↔ fee ≤ total) := by
  unfold classifyRead
  split_ifs with h1 h2
  · exact ⟨⟨fun _ => h1, fun _ => rfl⟩,
      ⟨fun hc => absurd hc (by decide), fun hv => absurd (h1 ▸ hv.1) (lt_irrefl 0)⟩,
      ⟨fun hc => absurd hc (by decide), fun hv => absurd (h1 ▸ hv) (not_le.mpr hfee)⟩⟩
  · exact ⟨⟨fun hc => absurd hc (by decide), fun hv => absurd hv h1⟩,
      ⟨fun _ => ⟨lt_of_le_of_ne htot (Ne.symm h1), h2⟩, fun _ => rfl⟩,
      ⟨fun hc => absurd hc (by decide), fun hv => absurd h2 (not_lt.mpr hv)⟩⟩
  · exact ⟨⟨fun hc => absurd hc (by decide), fun hv => absurd hv h1⟩,
      ⟨fun hc => absurd hc (by decide), fun hv => absurd hv.2 h2⟩,
      ⟨fun _ => not_lt.mp h2, fun _ => rfl⟩⟩

theorem collectFeeClassify_spec (total fee : ℚ) (hfee : 0 < fee) (htot : 0 ≤ total) :
    (collectFeeClassify total fee = "unpaid" ↔ total = 0) ∧
    (collectFeeClassify total fee = "partial" ↔ 0 < total ∧ total < fee) ∧
    (collectFeeClassify total fee = "paid" ↔ fee ≤ total) := by
  unfold collectFeeClassify
  split_ifs with h1 h2
  · exact ⟨⟨fun hc => absurd hc (by decide), fun hv => absurd (hv ▸ h1) (not_le.mpr hfee)⟩,
      ⟨fun hc => absurd hc (by decide), fun hv => absurd h1 (not_le.mpr hv.2)⟩,
      ⟨fun _ => h1, fun _ => rfl⟩⟩
  · exact ⟨⟨fun hc => absurd hc (by decide), fun hv => absurd (hv ▸ h2) (lt_irrefl 0)⟩,
      ⟨fun _ => ⟨h2, not_le.mp h1⟩, fun _ => rfl⟩,
      ⟨fun hc => absurd hc (by decide), fun hv => absurd hv h1⟩⟩
  · exact ⟨⟨fun _ => le_antisymm (not_lt.mp h2) htot, fun _ => rfl⟩,
      ⟨fun hc => absurd hc (by decide), fun hv => absurd hv.1 h2⟩,
      ⟨fun hc => absurd hc (by decide), fun hv => absurd hv h1⟩⟩

theorem classifyRead_mem (total fee : ℚ) :
    classifyRead total fee = "unpaid" ∨ classifyRead total fee = "partial" ∨
      classifyRead total fee = "paid" := by
  unfold classifyRead
  split_ifs <;> simp

theorem collectFeeClassify_mem (total fee : ℚ) :
    collectFeeClassify total fee = "unpaid" ∨ collectFeeClassify total fee = "partial" ∨
      collectFeeClassify total fee = "paid" := by
  unfold collectFeeClassify
  split_ifs <;> simp

theorem find?_replaceById (l : List Student) (sid : Int) (st st' : Student)
    (h : l.find? (fun s => (s.id : Int) == sid) = some st) (hid : st'.id = st.id) :
    (replaceById l st.id st').find? (fun s => (s.id : Int) == sid) = some st' := by
  induction l with
  | nil => simp at h
  | cons x xs ih =>
    cases hx : ((x.id : Int) == sid) with
    | true =>
      rw [List.find?_cons] at h
      simp only [hx] at h
      injection h with h'
      subst h'
      unfold replaceById
      rw [if_pos (beq_self_eq_true x.id)]
      rw [List.find?_cons]
      simp only [hid, hx]
    | false =>
      rw [List.find?_cons] at h
      simp only [hx] at h
      have hxid : ¬((x.id == st.id) = true) := by
        intro he
        have hps := List.find?_some h
        rw [beq_iff_eq] at he
        rw [he, hps] at hx
        exact Bool.noConfusion hx
      unfold replaceById
      rw [if_neg hxid]
      rw [List.find?_cons]
      simp only [hx]
      exact ih h

theorem applyName_room_id (st : Student) (o : Option String) :
    (applyName st o).room_id = st.room_id := by
  cases o <;> rfl

theorem applyFee_room_id (st : Student) (o : Option ℚ) :
    (applyFee st o).room_id = st.room_id := by
  cases o <;> rfl

theorem applyStatus_room_id (st : Student) (o : Option String) :
    (applyStatus st o).room_id = st.room_id := by
  cases o <;> rfl

theorem replaceById_self (l : List Student) (sid : Nat) (st : Student)
    (hfind : l.find? (fun s => s.id == sid) = some st) :
    replaceById l sid st = l := by
  induction l with
  | nil => rfl
  | cons x xs ih =>
    cases hx : (x.id == sid) with
    | true =>
      rw [List.find?_cons] at hfind
      simp only [hx] at hfind
      injection hfind with h'
      subst h'
      unfold replaceById
      rw [if_pos hx]
    | false =>
      rw [List.find?_cons] at hfind
      simp only [hx] at hfind
      unfold replaceById
      rw [if_neg (by simp [hx])]
      rw [ih hfind]

theorem countRoom_map_status (l : List Student) (g : Student → String) (rid : Int) :
    ((l.map (fun s => { s with status := g s })).filter (fun s => s.room_id == rid)).length
      = (l.filter (fun s => s.room_id == rid)).length := by
  induction l with
  | nil => rfl
  | cons x xs ih =>
    simp only [List.map_cons, List.filter_cons]
    cases hx : (x.room_id == rid) <;> simp [hx, ih]

/-- Indicator counting one student towards a room's occupancy. -/
def roomInd (st : Student) (rid : Int) : Nat :=
  if st.room_id = rid then 1 else 0

theorem roomInd_pos (st : Student) (rid : Int) (h : st.room_id = rid) :
    roomInd st rid = 1 := if_pos h

theorem roomInd_neg (st : Student) (rid : Int) (h : st.room_id ≠ rid) :
    roomInd st rid = 0 := if_neg h

theorem roomInd_congr (a b : Student) (rid : Int) (h : a.room_id = b.room_id) :
    roomInd a rid = roomInd b rid := by
  unfold roomInd
  rw [h]

theorem filterRoom_replaceById (l : List Student) (sid : Nat) (st st' : Student) (rid : Int)
    (hfind : l.find? (fun s => s.id == sid) = some st) :
    ((replaceById l sid st').filter (fun s => s.room_id == rid)).length + roomInd st rid
      = (l.filter (fun s => s.room_id == rid)).length + roomInd st' rid := by
  induction l with
  | nil => simp at hfind
  | cons x xs ih =>
    cases hx : (x.id == sid) with
    | true =>
      rw [List.find?_cons] at hfind
      simp only [hx] at hfind
      injection hfind with h'
      subst h'
      unfold replaceById
      rw [if_pos hx]
      by_cases h1 : st'.room_id = rid <;> by_cases h2 : x.room_id = rid <;>
        simp [roomInd, h1, h2]
    | false =>
      rw [List.find?_cons] at hfind
      simp only [hx] at hfind
      unfold replaceById
      rw [if_neg (by simp [hx])]
      have h := ih hfind
      by_cases h2 : x.room_id = rid
      · rw [List.filter_cons_of_pos (by simp [h2]), List.filter_cons_of_pos (by simp [h2])]
        simp only [List.length_cons]
        omega
      · rw [List.filter_cons_of_neg (by simp [h2]), List.filter_cons_of_neg (by simp [h2])]
        omega

theorem roomById_mem (db : DB) (rid : Int) (room : Room)
    (hroom : roomById db rid = some room) : room ∈ db.rooms :=
  List.mem_of_find?_eq_some hroom

theorem roomById_id (db : DB) (rid : Int) (room : Room)
    (hroom : roomById db rid = some room) : (room.id : Int) = rid := by
  have h' : db.rooms.find? (fun rm => (rm.id : Int) == rid) = some room := hroom
  have h2 := List.find?_some h'
  exact beq_iff_eq.mp h2

theorem roomById_unique (db : DB) (rid : Int) (room : Room)
    (hnd : (db.rooms.map Room.id).Nodup)
    (hroom : roomById db rid = some room) :
    ∀ rm ∈ db.rooms, (rm.id : Int) = rid → rm = room := by
  intro rm hrm hid
  have hmem : room ∈ db.rooms := roomById_mem db rid room hroom
  have hpid : (room.id : Int) = rid := roomById_id db rid room hroom
  have hids : rm.id = room.id := by
    have h2 : (rm.id : Int) = (room.id : Int) := by rw [hid, hpid]
    exact_mod_cast h2
  exact List.inj_on_of_nodup_map hnd hrm hmem hids

theorem roomcap_insert (rooms : List Room) (students : List Student) (rid : Int)
    (room : Room) (st : Student)
    (hinv : ∀ rm ∈ rooms,
      (students.filter (fun s => s.room_id == (rm.id : Int))).length ≤ rm.capacity)
    (huniq : ∀ rm ∈ rooms, (rm.id : Int) = rid → rm = room)
    (hlt : (students.filter (fun s => s.room_id == rid)).length < room.capacity)
    (hst : st.room_id = rid) :
    ∀ rm ∈ rooms,
      ((students ++ [st]).filter (fun s => s.room_id == (rm.id : Int))).length
        ≤ rm.capacity := by
  intro rm hrm
  rw [List.filter_append, List.length_append]
  by_cases hc : (rm.id : Int) = rid
  · have hrm_eq := huniq rm hrm hc
    subst hrm_eq
    have h1 : (([st] : List Student).filter (fun s => s.room_id == (rm.id : Int))).length ≤ 1 :=
      List.length_filter_le _ _
    have h2 := hlt
    rw [← hc] at h2
    omega
  · have hpred : (st.room_id == (rm.id : Int)) = false := by
      rw [hst]
      exact beq_eq_false_iff_ne.mpr (fun h => hc h.symm)
    have h0 : (([st] : List Student).filter (fun s => s.room_id == (rm.id : Int))).length = 0 := by
      simp [List.filter_cons, hpred]
    rw [h0]
    have := hinv rm hrm
    omega

theorem applyStatus_update_room (st : Student) (rid : Int) (o : Option String) :
    (applyStatus { st with room_id := rid } o).room_id = rid := by
  cases o <;> rfl

theorem roomcap_post_create (db : DB) (hnd : (db.rooms.map Room.id).Nodup)
    (hinv : RoomCap db) (name : Option String) (fee : Option ℚ) (room_id : Option Int) :
    RoomCap (api_students_post db name fee room_id).2 := by
  cases name with
  | none => exact hinv
  | some nm =>
    cases fee with
    | none => exact hinv
    | some f =>
      cases room_id with
      | none => exact hinv
      | some rid =>
        simp only [api_students_post]
        split
        · exact hinv
        · split
          · exact hinv
          · split
            · exact hinv
            · rename_i room hroom
              split
              · exact hinv
              · rename_i hfull
                intro rm hrm
                unfold occupancy
                dsimp only at hrm ⊢
                exact roomcap_insert db.rooms db.students rid room _
                  (fun rm2 hrm2 => hinv rm2 hrm2)
                  (roomById_unique db rid room hnd hroom)
                  (not_le.mp hfull) rfl rm hrm

theorem roomcap_post_update (db : DB) (hnd : (db.rooms.map Room.id).Nodup)
    (hinv : RoomCap db) (sid : Nat) (name : Option String) (fee : Option ℚ)
    (room_id : Option Int) (status : Option String) :
    RoomCap (api_update_student db sid name fee room_id status).2 := by
  unfold api_update_student
  cases hfind : db.students.find? (fun s => s.id == sid) with
  | none => exact hinv
  | some st0 =>
    dsimp only
    cases room_id with
    | none =>
      intro rm hrm
      dsimp only at hrm
      unfold occupancy
      show ((replaceById db.students sid
          (applyStatus (applyFee (applyName st0 name) fee) status)).filter
            (fun s => s.room_id == (rm.id : Int))).length ≤ rm.capacity
      have hkey := filterRoom_replaceById db.students sid st0
        (applyStatus (applyFee (applyName st0 name) fee) status) (rm.id : Int) hfind
      rw [roomInd_congr (applyStatus (applyFee (applyName st0 name) fee) status) st0 (rm.id : Int)
        (by rw [applyStatus_room_id, applyFee_room_id, applyName_room_id])] at hkey
      have hbase := hinv rm hrm
      unfold occupancy at hbase
      omega
    | some rid =>
      dsimp only
      split
      · exact hinv
      · split
        · exact hinv
        · rename_i newRoom hroom
          split
          · exact hinv
          · rename_i hcond
            intro rm hrm
            dsimp only at hrm
            unfold occupancy
            show ((replaceById db.students sid
                (applyStatus { applyFee (applyName st0 name) fee with room_id := rid }
                  status)).filter (fun s => s.room_id == (rm.id : Int))).length ≤ rm.capacity
            have hkey := filterRoom_replaceById db.students sid st0
              (applyStatus { applyFee (applyName st0 name) fee with room_id := rid } status)
              (rm.id : Int) hfind
            have hridnew : (applyStatus { applyFee (applyName st0 name) fee with
                room_id := rid } status).room_id = rid := applyStatus_update_room _ rid status
            have hbase := hinv rm hrm
            unfold occupancy at hbase
            by_cases hsame : (applyFee (applyName st0 name) fee).room_id = rid
            · have hs0 : st0.room_id = rid := by
                rw [applyFee_room_id, applyName_room_id] at hsame
                exact hsame
              rw [roomInd_congr (applyStatus { applyFee (applyName st0 name) fee with
                  room_id := rid } status) st0 (rm.id : Int)
                (by rw [hridnew, hs0])] at hkey
              omega
            · have hs0' : st0.room_id ≠ rid := by
                intro hc
                exact hsame (by rw [applyFee_room_id, applyName_room_id]; exact hc)
              have hlt : occupancy db rid < newRoom.capacity := by
                by_contra hge
                exact hcond ⟨hsame, not_lt.mp hge⟩
              unfold occupancy at hlt
              by_cases hcm : (rm.id : Int) = rid
              · have hrmeq : rm = newRoom := roomById_unique db rid newRoom hnd hroom rm hrm hcm
                rw [hcm] at hkey ⊢
                rw [roomInd_neg st0 rid hs0'] at hkey
                rw [roomInd_pos _ rid hridnew] at hkey
                rw [hrmeq]
                omega
              · rw [roomInd_neg
                  (applyStatus { applyFee (applyName st0 name) fee with room_id := rid } status)
                  (rm.id : Int)
                  (by rw [hridnew]; exact fun hc => hcm hc.symm)] at hkey
                omega

theorem bulkValidate_ok_capacity (db : DB) (seen : List String) (row : BulkRow)
    (name : String) (f : ℚ) (rid : Int)
    (h : bulkValidate db seen row = .ok (name, f, rid)) :
    ∃ room : Room, roomById db rid = some room ∧ occupancy db rid < room.capacity := by
  unfold bulkValidate at h
  dsimp only at h
  split at h
  · simp at h
  · split at h
    · simp at h
    · split at h
      · simp at h
      · split at h
        · simp at h
        · split at h
          · simp at h
          · split at h
            · simp at h
            · split at h
              · simp at h
              · split at h
                · simp at h
                · rename_i room hroom
                  split at h
                  · simp at h
                  · rename_i hcap
                    injection h with h'
                    rw [Prod.mk.injEq, Prod.mk.injEq] at h'
                    obtain ⟨-, -, h3⟩ := h'
                    subst h3
                    exact ⟨room, hroom, not_le.mp hcap⟩

theorem roomcap_post_bulkStep (db : DB) (hnd : (db.rooms.map Room.id).Nodup)
    (hinv : RoomCap db) (seen : List String) (row : BulkRow) :
    RoomCap (bulkStep db seen row).1 := by
  unfold bulkStep
  split
  · exact hinv
  · rename_i v nm f rid heq
    obtain ⟨room, hroom, hlt⟩ := bulkValidate_ok_capacity db seen row nm f rid heq
    intro rm hrm
    unfold occupancy
    dsimp only at hrm ⊢
    exact roomcap_insert db.rooms db.students rid room _
      (fun rm2 hrm2 => hinv rm2 hrm2)
      (roomById_unique db rid room hnd hroom)
      hlt rfl rm hrm

theorem bulkStep_rooms (db : DB) (seen : List String) (row : BulkRow) :
    (bulkStep db seen row).1.rooms = db.rooms := by
  unfold bulkStep
  split
  · rfl
  · rfl

theorem roomcap_post_bulkLoop (rows : List BulkRow) :
    ∀ (db : DB) (seen : List String) (idx : Nat),
      (db.rooms.map Room.id).Nodup → RoomCap db →
      RoomCap (bulkLoop db seen idx rows).1 := by
  induction rows with
  | nil =>
    intro db seen idx _ hinv
    exact hinv
  | cons row rest ih =>
    intro db seen idx hnd hinv
    have hstep := roomcap_post_bulkStep db hnd hinv seen row
    have hrooms := bulkStep_rooms db seen row
    unfold bulkLoop
    rcases hsplit : bulkStep db seen row with ⟨db', seen', e⟩
    rw [hsplit] at hstep hrooms
    have hnd' : (db'.rooms.map Room.id).Nodup := by rw [hrooms]; exact hnd
    cases e with
    | none => exact ih db' seen' (idx + 1) hnd' hstep
    | some m => exact ih db' seen' (idx + 1) hnd' hstep

theorem bulkOutcomes_cons (db : DB) (seen : List String) (row : BulkRow)
    (rest : List BulkRow) :
    bulkOutcomes db seen (row :: rest)
      = (bulkStep db seen row).2.2 ::
        bulkOutcomes (bulkStep db seen row).1 (bulkStep db seen row).2.1 rest := rfl

theorem bulkStep_error_state (db : DB) (seen : List String) (row : BulkRow) (m : String)
    (h : (bulkStep db seen row).2.2 = some m) :
    (bulkStep db seen row).1 = db ∧ (bulkStep db seen row).2.1 = seen := by
  unfold bulkStep at h ⊢
  cases hv : bulkValidate db seen row with
  | error m2 => exact ⟨rfl, rfl⟩
  | ok v =>
    obtain ⟨a, b, c⟩ := v
    rw [hv] at h
    simp at h

theorem bulkValidate_ok_name (db : DB) (seen : List String) (row : BulkRow)
    (nm : String) (f : ℚ) (rid : Int)
    (h : bulkValidate db seen row = .ok (nm, f, rid)) :
    nm = effName row ∧ effName row ≠ "" ∧ pyLower (effName row) ≠ "nan" := by
  unfold bulkValidate at h
  dsimp only at h
  split at h
  · simp at h
  · rename_i hnot
    push_neg at hnot
    split at h
    · simp at h
    · split at h
      · simp at h
      · split at h
        · simp at h
        · split at h
          · simp at h
          · split at h
            · simp at h
            · split at h
              · simp at h
              · split at h
                · simp at h
                · split at h
                  · simp at h
                  · injection h with h'
                    rw [Prod.mk.injEq, Prod.mk.injEq] at h'
                    exact ⟨h'.1.symm, hnot.1, hnot.2⟩

theorem bulkStep_success_state (db : DB) (seen : List String) (row : BulkRow)
    (h : (bulkStep db seen row).2.2 = none) :
    (bulkStep db seen row).1.students.length = db.students.length + 1 ∧
    (bulkStep db seen row).2.1 = effName row :: seen ∧
    effName row ≠ "" ∧ pyLower (effName row) ≠ "nan" := by
  unfold bulkStep at h ⊢
  cases hv : bulkValidate db seen row with
  | error m =>
    rw [hv] at h
    simp at h
  | ok v =>
    obtain ⟨nm, f, rid⟩ := v
    obtain ⟨hnm, hne, hnan⟩ := bulkValidate_ok_name db seen row nm f rid hv
    subst hnm
    dsimp only
    refine ⟨?_, rfl, hne, hnan⟩
    simp [List.length_append]

theorem bulkStep_seen_mono (db : DB) (seen : List String) (row : BulkRow) (x : String)
    (hx : x ∈ seen) : x ∈ (bulkStep db seen row).2.1 := by
  unfold bulkStep
  cases hv : bulkValidate db seen row with
  | error m => exact hx
  | ok v =>
    obtain ⟨a, b, c⟩ := v
    exact List.mem_cons_of_mem _ hx

theorem bulkRun_seen_mono (rows : List BulkRow) :
    ∀ (db : DB) (seen : List String) (x : String),
      x ∈ seen → x ∈ (bulkRun db seen rows).2 := by
  induction rows with
  | nil =>
    intro db seen x hx
    exact hx
  | cons row rest ih =>
    intro db seen x hx
    unfold bulkRun
    exact ih _ _ x (bulkStep_seen_mono db seen row x hx)

theorem bulkStep_dup (db : DB) (seen : List String) (row : BulkRow)
    (hmem : effName row ∈ seen) (hne : effName row ≠ "")
    (hnan : pyLower (effName row) ≠ "nan") :
    bulkStep db seen row = (db, seen, some "duplicate name within file") := by
  unfold bulkStep bulkValidate
  rw [if_neg (by push_neg; exact ⟨hne, hnan⟩)]
  rw [if_pos (by simpa using hmem)]

theorem bulkLoop_spec (rows : List BulkRow) :
    ∀ (db : DB) (seen : List String) (idx : Nat),
      (bulkLoop db seen idx rows).2.total_processed = rows.length ∧
      (bulkLoop db seen idx rows).2.success_count
        + (bulkLoop db seen idx rows).2.errors.length = rows.length ∧
      (bulkLoop db seen idx rows).1.students.length
        = db.students.length + (bulkLoop db seen idx rows).2.success_count ∧
      (bulkLoop db seen idx rows).2.errors
        = ((bulkOutcomes db seen rows).enumFrom idx).filterMap
            (fun p => p.2.map (fun m => rowErr p.1 m)) := by
  induction rows with
  | nil =>
    intro db seen idx
    exact ⟨rfl, rfl, rfl, rfl⟩
  | cons row rest ih =>
    intro db seen idx
    unfold bulkLoop
    rw [bulkOutcomes_cons]
    rcases hsplit : bulkStep db seen row with ⟨db', seen', e⟩
    dsimp only
    obtain ⟨ih1, ih2, ih3, ih4⟩ := ih db' seen' (idx + 1)
    cases e with
    | none =>
      dsimp only
      have hs := bulkStep_success_state db seen row (by rw [hsplit])
      rw [hsplit] at hs
      dsimp only at hs
      refine ⟨?_, ?_, ?_, ?_⟩
      · simp only [List.length_cons]
        omega
      · simp only [List.length_cons]
        omega
      · have := hs.1
        omega
      · simp only [List.enumFrom_cons, List.filterMap_cons, Option.map_none']
        exact ih4
    | some m =>
      dsimp only
      have hs := bulkStep_error_state db seen row m (by rw [hsplit])
      rw [hsplit] at hs
      dsimp only at hs
      refine ⟨?_, ?_, ?_, ?_⟩
      · simp only [List.length_cons]
        omega
      · simp only [List.length_cons, List.length_cons]
        omega
      · rw [← hs.1]
        omega
      · simp only [List.enumFrom_cons, List.filterMap_cons, Option.map_some']
        rw [ih4]

/-! ### Claim theorems -/

/-- **C1**: the read-side status (`Student.computed_fee_status`) and the
classification persisted by `collect_fee` both classify a month's payment
total against the student's fee by the thresholds sum = 0 → unpaid,
0 < sum < fee → partial, sum ≥ fee → paid, always producing exactly one
of the three values (for a positive fee and nonnegative payment amounts);
and `collect_fee` persists exactly this classification of the
post-payment total onto the student row. -/
theorem C1_fee_status_thresholds
    (recs : List FeeRecord) (sid : Int) (fee total : ℚ) (m y : Nat)
    (db : DB) (sid2 : Int) (a : ℚ) (d : PDate) (st : Student)
    (hfee : 0 < fee) (hpos : ∀ r ∈ recs, 0 ≤ r.amount) (htot : 0 ≤ total)
    (hsid2 : sid2 ≠ 0) (ha : a ≠ 0)
    (hfind : db.students.find? (fun s => (s.id : Int) == sid2) = some st) :
    (computed_fee_status recs sid fee m y = "unpaid" ↔ sumMonth recs sid m y = 0) ∧
    (computed_fee_status recs sid fee m y = "partial" ↔
      0 < sumMonth recs sid m y ∧ sumMonth recs sid m y < fee) ∧
    (computed_fee_status recs sid fee m y = "paid" ↔ fee ≤ sumMonth recs sid m y) ∧
    (computed_fee_status recs sid fee m y = "unpaid" ∨
      computed_fee_status recs sid fee m y = "partial" ∨
      computed_fee_status recs sid fee m y = "paid") ∧
    (collectFeeClassify total fee = "unpaid" ↔ total = 0) ∧
    (collectFeeClassify total fee = "partial" ↔ 0 < total ∧ total < fee) ∧
    (collectFeeClassify total fee = "paid" ↔ fee ≤ total) ∧
    (collectFeeClassify total fee = "unpaid" ∨ collectFeeClassify total fee = "partial" ∨
      collectFeeClassify total fee = "paid") ∧
    (collect_fee db (some sid2) (some a) (some d)).1 = .ok "Fee collected successfully" ∧
    (collect_fee db (some sid2) (some a) (some d)).2.students.find?
        (fun s => (s.id : Int) == sid2) =
      some { st with
              fee_status := collectFeeClassify
                (sumMonth (db.fee_records ++
                  [{ id := db.nextFeeRecordId, student_id := sid2, amount := a,
                     date_paid := d, month_year := monthYearStr d,
                     payment_method := "cash" }]) sid2 d.month d.year) st.fee,
              last_fee_payment := some d } := by
  obtain ⟨hu, hp, hd⟩ := classifyRead_spec (sumMonth recs sid m y) fee hfee
    (sumMonth_nonneg recs sid m y hpos)
  obtain ⟨hu2, hp2, hd2⟩ := collectFeeClassify_spec total fee hfee htot
  refine ⟨hu, hp, hd, classifyRead_mem _ _, hu2, hp2, hd2, collectFeeClassify_mem _ _, ?_, ?_⟩
  · simp only [collect_fee]
    rw [if_neg (by push_neg; exact ⟨hsid2, ha⟩)]
  · simp only [collect_fee]
    rw [if_neg (by push_neg; exact ⟨hsid2, ha⟩)]
    simp only [hfind]
    exact find?_replaceById db.students sid2 st _ hfind rfl

/-- Witness for C1 at a concrete state: fee 5000, payments of 2000 and
2000 in 2025-03 give status `partial`; recording a further 1000 through
`collect_fee` persists status `paid`. -/
theorem C1_fee_status_thresholds_witness :
    computed_fee_status
        [⟨1, 7, 2000, ⟨2025, 3, 5⟩, "2025-03", "cash"⟩,
         ⟨2, 7, 2000, ⟨2025, 3, 9⟩, "2025-03", "cash"⟩] 7 5000 3 2025 = "partial" ∧
    (collect_fee
        { rooms := [⟨1, 101, 3⟩],
          students := [⟨7, "Ali", 5000, 1, "active", "partial", none⟩],
          fee_records := [⟨1, 7, 2000, ⟨2025, 3, 5⟩, "2025-03", "cash"⟩,
                          ⟨2, 7, 2000, ⟨2025, 3, 9⟩, "2025-03", "cash"⟩],
          employees := [], salary_records := [], expenses := [],
          nextStudentId := 8, nextFeeRecordId := 3, nextSalaryId := 1,
          nextExpenseId := 1 }
        (some 7) (some 1000) (some ⟨2025, 3, 20⟩)).2.students.find?
      (fun s => (s.id : Int) == 7) =
      some ⟨7, "Ali", 5000, 1, "active", "paid", some ⟨2025, 3, 20⟩⟩ := by
  have h := C1_fee_status_thresholds
    [⟨1, 7, 2000, ⟨2025, 3, 5⟩, "2025-03", "cash"⟩,
     ⟨2, 7, 2000, ⟨2025, 3, 9⟩, "2025-03", "cash"⟩] 7 5000 1000 3 2025
    { rooms := [⟨1, 101, 3⟩],
      students := [⟨7, "Ali", 5000, 1, "active", "partial", none⟩],
      fee_records := [⟨1, 7, 2000, ⟨2025, 3, 5⟩, "2025-03", "cash"⟩,
                      ⟨2, 7, 2000, ⟨2025, 3, 9⟩, "2025-03", "cash"⟩],
      employees := [], salary_records := [], expenses := [],
      nextStudentId := 8, nextFeeRecordId := 3, nextSalaryId := 1, nextExpenseId := 1 }
    7 1000 ⟨2025, 3, 20⟩ ⟨7, "Ali", 5000, 1, "active", "partial", none⟩
    (by norm_num) (by decide) (by norm_num) (by decide) (by norm_num) (by decide)
  refine ⟨?_, ?_⟩
  · exact (h.2.1).mpr (by constructor <;> norm_num [sumMonth, monthRecords])
  · have h10 := h.2.2.2.2.2.2.2.2.2
    rw [h10]
    norm_num [sumMonth, monthRecords, collectFeeClassify]

/-- **C2** (amended): `collect_fee` performs no student-existence check:
with an unknown student id (and a truthy amount, including a negative
one) the `FeeRecord` is persisted anyway and the handler reports success,
skipping only the fee-status update; a missing or zero (falsy) amount is
rejected before anything is persisted. -/
theorem C2_collect_fee_validation
    (db : DB) (sid : Int) (a : ℚ) (d : PDate)
    (hsid : sid ≠ 0) (hneg : a < 0)
    (hunknown : ∀ s ∈ db.students, (s.id : Int) ≠ sid) :
    collect_fee db (some sid) (some a) (some d) =
      (.ok "Fee collected successfully",
        { db with
            fee_records := db.fee_records ++
              [{ id := db.nextFeeRecordId, student_id := sid, amount := a,
                 date_paid := d, month_year := monthYearStr d, payment_method := "cash" }],
            nextFeeRecordId := db.nextFeeRecordId + 1 }) ∧
    collect_fee db (some sid) none (some d) =
      (.err 400 "Student ID, amount, and date are required", db) ∧
    collect_fee db (some sid) (some 0) (some d) =
      (.err 400 "Student ID, amount, and date are required", db) := by
  have hfind : db.students.find? (fun s => (s.id : Int) == sid) = none := by
    rw [List.find?_eq_none]
    intro s hs
    simpa using hunknown s hs
  refine ⟨?_, rfl, ?_⟩
  · simp only [collect_fee]
    rw [if_neg (by push_neg; exact ⟨hsid, ne_of_lt hneg⟩)]
    simp only [hfind]
  · simp only [collect_fee]
    simp

/-- Witness for C2 at a concrete state: id 9 is unknown, the amount −50
is negative, yet the payment is persisted with success. -/
theorem C2_collect_fee_validation_witness :
    collect_fee
        { rooms := [⟨1, 101, 3⟩], students := [⟨7, "Ali", 5000, 1, "active", "unpaid", none⟩],
          fee_records := [], employees := [], salary_records := [], expenses := [],
          nextStudentId := 8, nextFeeRecordId := 4, nextSalaryId := 1, nextExpenseId := 1 }
        (some 9) (some (-50)) (some ⟨2025, 4, 2⟩) =
      (.ok "Fee collected successfully",
        { rooms := [⟨1, 101, 3⟩], students := [⟨7, "Ali", 5000, 1, "active", "unpaid", none⟩],
          fee_records := [⟨4, 9, -50, ⟨2025, 4, 2⟩, "2025-04", "cash"⟩],
          employees := [], salary_records := [], expenses := [],
          nextStudentId := 8, nextFeeRecordId := 5, nextSalaryId := 1, nextExpenseId := 1 }) := by
  have h := (C2_collect_fee_validation
    { rooms := [⟨1, 101, 3⟩], students := [⟨7, "Ali", 5000, 1, "active", "unpaid", none⟩],
      fee_records := [], employees := [], salary_records := [], expenses := [],
      nextStudentId := 8, nextFeeRecordId := 4, nextSalaryId := 1, nextExpenseId := 1 }
    9 (-50) ⟨2025, 4, 2⟩ (by decide) (by norm_num) (by decide)).1
  rw [h]
  rfl

/-- The database for the C2 counterexample: one room, no students at all. -/
def dbC2 : DB :=
  { rooms := [⟨1, 101, 3⟩], students := [], fee_records := [], employees := [],
    salary_records := [], expenses := [], nextStudentId := 1, nextFeeRecordId := 1,
    nextSalaryId := 1, nextExpenseId := 1 }

/-- **C2 counterexample**: student id 7 does not exist (the student table
is empty), yet `collect_fee` responds with success — not a not-found
error — and persists the `FeeRecord`, contradicting the claim that an
unknown student id yields a not-found error with no mutation. -/
theorem C2_collect_fee_counterexample :
    dbC2.students = [] ∧
    (collect_fee dbC2 (some 7) (some 100) (some ⟨2025, 3, 15⟩)).1 =
      .ok "Fee collected successfully" ∧
    (collect_fee dbC2 (some 7) (some 100) (some ⟨2025, 3, 15⟩)).2.fee_records =
      [⟨1, 7, 100, ⟨2025, 3, 15⟩, "2025-03", "cash"⟩] := by
  refine ⟨rfl, rfl, by decide⟩

/-- **C9**: a successful student deletion removes every `FeeRecord`
referencing the student together with the student row: afterwards no fee
record carries the deleted id and no student row with that id remains. -/
theorem C9_delete_student_cascades
    (db : DB) (sid : Nat) (st : Student)
    (hfind : db.students.find? (fun s => s.id == sid) = some st) :
    (api_delete_student db sid).1 = .ok "Student deleted successfully" ∧
    (api_delete_student db sid).2.fee_records =
      db.fee_records.filter (fun r => r.student_id != (sid : Int)) ∧
    (∀ r ∈ (api_delete_student db sid).2.fee_records, r.student_id ≠ (sid : Int)) ∧
    (∀ s ∈ (api_delete_student db sid).2.students, s.id ≠ sid) := by
  simp only [api_delete_student, hfind]
  refine ⟨trivial, trivial, ?_, ?_⟩
  · intro r hr
    simp only [List.mem_filter] at hr
    simpa using hr.2
  · intro s hs
    simp only [List.mem_filter] at hs
    simpa using hs.2

/-- The database for the C9 witness: student 1 with two fee records, a
second student's record must survive. -/
def dbC9 : DB :=
  { rooms := [⟨1, 101, 3⟩],
    students := [⟨1, "Ali", 5000, 1, "active", "unpaid", none⟩,
                 ⟨2, "Sara", 5500, 1, "active", "unpaid", none⟩],
    fee_records := [⟨1, 1, 2000, ⟨2025, 3, 5⟩, "2025-03", "cash"⟩,
                    ⟨2, 2, 1000, ⟨2025, 3, 6⟩, "2025-03", "cash"⟩,
                    ⟨3, 1, 500, ⟨2025, 2, 1⟩, "2025-02", "cash"⟩],
    employees := [], salary_records := [], expenses := [],
    nextStudentId := 3, nextFeeRecordId := 4, nextSalaryId := 1, nextExpenseId := 1 }

/-- Witness for C9: deleting student 1 removes both of their fee records
and keeps student 2's record. -/
theorem C9_delete_student_cascades_witness :
    (api_delete_student dbC9 1).1 = .ok "Student deleted successfully" ∧
    (api_delete_student dbC9 1).2.fee_records =
      [⟨2, 2, 1000, ⟨2025, 3, 6⟩, "2025-03", "cash"⟩] := by
  have h := C9_delete_student_cascades dbC9 1
    ⟨1, "Ali", 5000, 1, "active", "unpaid", none⟩ (by decide)
  exact ⟨h.1, by rw [h.2.1]; decide⟩

/-- **C6**: recording a salary payment for an `(employee, month_year)`
pair that already has a `SalaryRecord` is rejected with a conflict and
leaves the database unchanged (no `SalaryRecord` or `Expense` row is
created); the at-most-one-payment-per-pair invariant is preserved by
`add_salary_payment` and by `delete_salary_payment`. -/
theorem C6_salary_payment_idempotency
    (db : DB) (adminId eid : Nat) (my : String) (amt : ℚ) (pm notes : String)
    (emp : Employee)
    (hemp : db.employees.find? (fun e => e.id == eid) = some emp)
    (hinv : AtMostOnePerPair db) :
    ((∃ sr ∈ db.salary_records, sr.employee_id = eid ∧ sr.month_year = my) →
      add_salary_payment db adminId eid (some my) (some amt) pm notes =
        (.err 400 "Salary already paid for this month", db)) ∧
    AtMostOnePerPair (add_salary_payment db adminId eid (some my) (some amt) pm notes).2 ∧
    (∀ salary_id : Nat, AtMostOnePerPair (delete_salary_payment db adminId salary_id).2) := by
  refine ⟨?_, ?_, ?_⟩
  · rintro ⟨sr, hmem, h1, h2⟩
    have hany : db.salary_records.any
        (fun r => r.employee_id == eid && r.month_year == my) = true := by
      rw [List.any_eq_true]
      exact ⟨sr, hmem, by simp [h1, h2]⟩
    simp only [add_salary_payment, hemp, hany, if_true]
  · simp only [add_salary_payment, hemp]
    split
    · exact hinv
    · rename_i hany
      split
      · exact hinv
      · unfold AtMostOnePerPair
        dsimp only
        rw [List.pairwise_append]
        refine ⟨hinv, List.pairwise_singleton _ _, ?_⟩
        intro a ha b hb
        simp only [List.mem_singleton] at hb
        subst hb
        rintro ⟨hae, ham⟩
        exact hany (List.any_eq_true.mpr ⟨a, ha, by simp [hae, ham]⟩)
  · intro salary_id
    simp only [delete_salary_payment]
    cases hfs : db.salary_records.find? (fun r => r.id == salary_id) with
    | none => exact hinv
    | some sr =>
      dsimp only
      cases hfe : db.employees.find? (fun e => e.id == sr.employee_id) with
      | none => exact hinv
      | some emp2 =>
        unfold AtMostOnePerPair
        dsimp only
        exact List.Pairwise.sublist (List.filter_sublist _) hinv

/-- The database for the C6 witness: employee 1 already paid for 2025-01. -/
def dbC6 : DB :=
  { rooms := [], students := [], fee_records := [],
    employees := [⟨1, "Ali", "Cook", 30000, "active"⟩],
    salary_records := [⟨1, 1, "2025-01", 30000, "cash", ""⟩],
    expenses := [⟨1, "Salary paid to Ali (Cook)", 30000, ⟨2025, 1, 1⟩, 1⟩],
    nextStudentId := 1, nextFeeRecordId := 1, nextSalaryId := 2, nextExpenseId := 2 }

/-- Witness for C6: the second payment attempt for (employee 1, 2025-01)
is rejected with the conflict message and the database is unchanged. -/
theorem C6_salary_payment_idempotency_witness :
    add_salary_payment dbC6 1 1 (some "2025-01") (some 30000) "cash" "" =
      (.err 400 "Salary already paid for this month", dbC6) := by
  refine (C6_salary_payment_idempotency dbC6 1 1 "2025-01" 30000 "cash" ""
    ⟨1, "Ali", "Cook", 30000, "active"⟩ (by decide) ?_).1
    ⟨⟨1, 1, "2025-01", 30000, "cash", ""⟩, by decide, rfl, rfl⟩
  unfold AtMostOnePerPair
  exact List.pairwise_singleton _ _

/-- **C3**: on student creation — single (`POST /api/students`) or
bulk-import row — the capacity check counts all students assigned to the
destination room regardless of status (the occupancy count is invariant
under arbitrary changes of every student's `status` field), and when
that count is ≥ the room's capacity the request is rejected with an
error naming the capacity and no student row is written (the database is
returned unchanged). -/
theorem C3_capacity_check_counts_all_statuses
    (db : DB) (seen : List String) (nm : String) (f : ℚ) (rid : Int) (room : Room)
    (row : BulkRow)
    (hnm : nm ≠ "") (hr1 : 1 ≤ rid) (hr18 : rid ≤ 18)
    (hroom : roomById db rid = some room)
    (hfull : room.capacity ≤ occupancy db rid)
    (hrn1 : effName row ≠ "") (hrn2 : pyLower (effName row) ≠ "nan")
    (hseen : effName row ∉ seen)
    (hdbname : ∀ s ∈ db.students, s.name ≠ effName row)
    (hrowfee : row.fee = some f) (hfpos : 0 < f)
    (hrowrid : row.room_id = some rid) :
    api_students_post db (some nm) (some f) (some rid) =
      (.err 400 s!"Room {rid} is at full capacity ({room.capacity} students)", db) ∧
    bulkStep db seen row =
      (db, seen, some s!"room {rid} is full (capacity {room.capacity})") ∧
    (∀ (g : Student → String) (rid2 : Int),
      occupancy { db with students := db.students.map (fun s => { s with status := g s }) } rid2
        = occupancy db rid2) := by
  have hrid0 : rid ≠ 0 := by omega
  have hf0 : f ≠ 0 := ne_of_gt hfpos
  refine ⟨?_, ?_, ?_⟩
  · simp only [api_students_post]
    rw [if_neg (by push_neg; exact ⟨hnm, hf0, hrid0⟩)]
    rw [if_neg (by push_neg; exact ⟨by omega, by omega⟩)]
    simp only [hroom]
    rw [if_pos hfull]
  · simp only [bulkStep, bulkValidate]
    rw [if_neg (by push_neg; exact ⟨hrn1, hrn2⟩)]
    rw [if_neg (by simpa using hseen)]
    rw [if_neg (by simp only [studentNameExists, List.any_eq_true]; push_neg; simpa using hdbname)]
    simp only [hrowfee]
    rw [if_neg (not_le.mpr hfpos)]
    simp only [hrowrid]
    rw [if_neg (by push_neg; exact ⟨by omega, by omega⟩)]
    simp only [hroom]
    rw [if_pos hfull]
  · intro g rid2
    unfold occupancy
    exact countRoom_map_status db.students g rid2

/-- The database for the C3 witness: room 1 has capacity 1 and already
holds one *inactive* student, so the inclusive occupancy count is 1. -/
def dbC3 : DB :=
  { rooms := [⟨1, 101, 1⟩],
    students := [⟨1, "Zed", 4000, 1, "inactive", "unpaid", none⟩],
    fee_records := [], employees := [], salary_records := [], expenses := [],
    nextStudentId := 2, nextFeeRecordId := 1, nextSalaryId := 1, nextExpenseId := 1 }

/-- Witness for C3: enrolling a second student into the full room (full
only because the inactive student is counted) is rejected with the
capacity error and the database is unchanged. -/
theorem C3_capacity_check_counts_all_statuses_witness :
    api_students_post dbC3 (some "Bob") (some 4500) (some 1) =
      (.err 400 "Room 1 is at full capacity (1 students)", dbC3) := by
  have h := (C3_capacity_check_counts_all_statuses dbC3 [] "Bob" 4500 1 ⟨1, 101, 1⟩
    ⟨"Bob", some 4500, some 1⟩
    (by decide) (by decide) (by decide) (by decide) (by decide)
    (by decide) (by decide) (by decide) (by decide) rfl (by norm_num) rfl).1
  rw [h]
  rfl

/-- **C4**: starting from a state in which every room holds at most its
capacity (and room ids are unique, as the primary key guarantees), every
write operation executed serially — student creation, student
update/room reassignment, a bulk-import row, or a whole bulk import —
leaves every room holding at most its capacity. -/
theorem C4_room_capacity_invariant
    (db : DB) (hnd : (db.rooms.map Room.id).Nodup) (hinv : RoomCap db) :
    (∀ (name : Option String) (fee : Option ℚ) (room_id : Option Int),
      RoomCap (api_students_post db name fee room_id).2) ∧
    (∀ (sid : Nat) (name : Option String) (fee : Option ℚ) (room_id : Option Int)
        (status : Option String),
      RoomCap (api_update_student db sid name fee room_id status).2) ∧
    (∀ (seen : List String) (row : BulkRow), RoomCap (bulkStep db seen row).1) ∧
    (∀ rows : List BulkRow, RoomCap (bulk_upload_students db rows).1) :=
  ⟨fun name fee room_id => roomcap_post_create db hnd hinv name fee room_id,
   fun sid name fee room_id status => roomcap_post_update db hnd hinv sid name fee room_id status,
   fun seen row => roomcap_post_bulkStep db hnd hinv seen row,
   fun rows => roomcap_post_bulkLoop rows db [] 0 hnd hinv⟩

/-- The database for the C4 witness: room 1 (capacity 2) with one
student. -/
def dbC4 : DB :=
  { rooms := [⟨1, 101, 2⟩],
    students := [⟨1, "Ali", 5000, 1, "active", "unpaid", none⟩],
    fee_records := [], employees := [], salary_records := [], expenses := [],
    nextStudentId := 2, nextFeeRecordId := 1, nextSalaryId := 1, nextExpenseId := 1 }

/-- Witness for C4: after a successful enrollment into room 1 the
capacity invariant still holds. -/
theorem C4_room_capacity_invariant_witness :
    RoomCap (api_students_post dbC4 (some "Bob") (some 4500) (some 1)).2 :=
  (C4_room_capacity_invariant dbC4 (by decide)
    (by unfold RoomCap occupancy; decide)).1 (some "Bob") (some 4500) (some 1)

/-- The database for the C5 scenarios: student 1 lives in room 5; room 3
has capacity 1 but two assigned students (occupancy 2). -/
def dbC5 : DB :=
  { rooms := [⟨3, 103, 1⟩, ⟨5, 105, 4⟩],
    students := [⟨1, "Ali", 5000, 5, "active", "unpaid", none⟩,
                 ⟨10, "Sara", 5000, 3, "active", "unpaid", none⟩,
                 ⟨11, "Omar", 5000, 3, "active", "unpaid", none⟩],
    fee_records := [], employees := [], salary_records := [], expenses := [],
    nextStudentId := 12, nextFeeRecordId := 1, nextSalaryId := 1, nextExpenseId := 1 }

/-- **C5 counterexample**: moving student 1 to the over-full room 3
(occupancy 2, capacity 1) is rejected with the message
`"Room 3 is at full capacity (1 students)"`, which contains the room id
and the capacity but not the digit `2` anywhere — the current occupancy
is not named, contradicting the claim that the capacity error names the
current occupancy. -/
theorem C5_update_failure_modes_counterexample :
    occupancy dbC5 3 = 2 ∧
    api_update_student dbC5 1 none none (some 3) none =
      (.err 400 "Room 3 is at full capacity (1 students)", dbC5) ∧
    ¬ ('2' ∈ ("Room 3 is at full capacity (1 students)").data) := by
  refine ⟨by decide, by decide, by decide⟩

/-- **C5** (amended): for the student-update (room reassignment)
operation with a target room id in the valid range: an absent target
room yields a not-found error and no change; a full target room
(different from the student's current room) yields a capacity error
naming the room id and its capacity (not the current occupancy) and no
change; and a destination equal to the student's current room succeeds
as a no-op without the capacity check being applied (no occupancy
hypothesis is required), leaving the database unchanged. -/
theorem C5_update_failure_modes
    (db : DB) (sid : Nat) (st : Student) (rid : Int) (room : Room)
    (name : Option String) (fee : Option ℚ) (status : Option String)
    (hfind : db.students.find? (fun s => s.id == sid) = some st)
    (hr1 : 1 ≤ rid) (hr18 : rid ≤ 18) :
    (roomById db rid = none →
      api_update_student db sid name fee (some rid) status =
        (.err 404 s!"Room {rid} not found", db)) ∧
    (roomById db rid = some room → st.room_id ≠ rid →
      room.capacity ≤ occupancy db rid →
      api_update_student db sid name fee (some rid) status =
        (.err 400 s!"Room {rid} is at full capacity ({room.capacity} students)", db)) ∧
    (roomById db rid = some room → st.room_id = rid →
      api_update_student db sid none none (some rid) none =
        (.ok "Student updated successfully", db)) := by
  refine ⟨?_, ?_, ?_⟩
  · intro hnone
    simp only [api_update_student, hfind]
    rw [if_neg (by push_neg; exact ⟨by omega, by omega⟩)]
    simp only [hnone]
  · intro hsome hdiff hfull
    simp only [api_update_student, hfind]
    rw [if_neg (by push_neg; exact ⟨by omega, by omega⟩)]
    simp only [hsome]
    rw [if_pos ⟨by rw [applyFee_room_id, applyName_room_id]; exact hdiff, hfull⟩]
  · intro hsome hsame
    simp only [api_update_student, hfind]
    rw [if_neg (by push_neg; exact ⟨by omega, by omega⟩)]
    simp only [hsome]
    rw [if_neg (by
      rintro ⟨hne, -⟩
      exact hne (by rw [applyFee_room_id, applyName_room_id]; exact hsame))]
    have hself : applyStatus { applyFee (applyName st none) none with room_id := rid } none
        = st := by
      show { st with room_id := rid } = st
      rw [← hsame]
    rw [hself, replaceById_self db.students sid st hfind]

/-- Witness for C5: in `dbC5`, updating student 1 with destination equal
to the current room 5 succeeds as a no-op even though no capacity
assumption is made, and the database is unchanged. -/
theorem C5_update_failure_modes_witness :
    api_update_student dbC5 1 none none (some 5) none =
      (.ok "Student updated successfully", dbC5) :=
  (C5_update_failure_modes dbC5 1 ⟨1, "Ali", 5000, 5, "active", "unpaid", none⟩ 5 ⟨5, 105, 4⟩
    none none none (by decide) (by decide) (by decide)).2.2 (by decide) (by decide)

/-- The database for the C7 scenarios: one employee, no records yet. -/
def dbC7 : DB :=
  { rooms := [], students := [], fee_records := [],
    employees := [⟨1, "Ali", "Cook", 30000, "active"⟩],
    salary_records := [], expenses := [],
    nextStudentId := 1, nextFeeRecordId := 1, nextSalaryId := 1, nextExpenseId := 1 }

/-- **C7 counterexample**: admin 1 records a salary payment (creating the
synthesized expense with `user_id = 1`); admin 2 then deletes the salary
payment.  The deletion succeeds and removes the `SalaryRecord`, but the
expense-matching includes the acting admin's id, so no expense matches
and the synthesized accounting entry survives — contradicting the claim
that it is removed together with the `SalaryRecord`. -/
theorem C7_salary_delete_counterexample :
    (add_salary_payment dbC7 1 1 (some "2025-01") (some 100) "cash" "").1 =
      .ok "Salary payment recorded successfully" ∧
    (delete_salary_payment
        (add_salary_payment dbC7 1 1 (some "2025-01") (some 100) "cash" "").2 2 1).1 =
      .ok "Salary payment deleted successfully" ∧
    (delete_salary_payment
        (add_salary_payment dbC7 1 1 (some "2025-01") (some 100) "cash" "").2 2 1).2.salary_records
      = [] ∧
    (delete_salary_payment
        (add_salary_payment dbC7 1 1 (some "2025-01") (some 100) "cash" "").2 2 1).2.expenses
      = [⟨1, "Salary paid to Ali (Cook)", 100, ⟨2025, 1, 1⟩, 1⟩] := by
  refine ⟨by decide, by decide, by decide, by decide⟩

/-- **C7** (amended): the corresponding `Expense` is located by the
generated description string, the paid amount, AND the acting admin's
id (not a structural link); when the deleting admin is the one who
recorded the payment, the amount is unchanged, and no pre-existing
expense matches the same key, deleting the salary payment removes the
`SalaryRecord` together with the synthesized `Expense`. -/
theorem C7_salary_delete_roundtrip
    (db db1 : DB) (adminId eid : Nat) (my : String) (amt : ℚ) (pm notes : String)
    (emp : Employee) (ym : Nat × Nat)
    (hemp : db.employees.find? (fun e => e.id == eid) = some emp)
    (hparse : parseMonthYear my = some ym)
    (hnopair : ∀ r ∈ db.salary_records, ¬(r.employee_id = eid ∧ r.month_year = my))
    (hfresh : ∀ r ∈ db.salary_records, r.id ≠ db.nextSalaryId)
    (hnomatch : ∀ ex ∈ db.expenses,
      ¬(ex.item_name = salaryExpenseName emp ∧ ex.price = amt ∧ ex.user_id = adminId))
    (hadd1 : add_salary_payment db adminId eid (some my) (some amt) pm notes =
      (.ok "Salary payment recorded successfully", db1)) :
    db1.salary_records = db.salary_records ++
      [{ id := db.nextSalaryId, employee_id := eid, month_year := my,
         amount_paid := amt, payment_method := pm, notes := notes }] ∧
    db1.expenses = db.expenses ++
      [{ id := db.nextExpenseId, item_name := salaryExpenseName emp,
         price := amt, date := ⟨ym.1, ym.2, 1⟩, user_id := adminId }] ∧
    (delete_salary_payment db1 adminId db.nextSalaryId).1 =
      .ok "Salary payment deleted successfully" ∧
    (delete_salary_payment db1 adminId db.nextSalaryId).2.salary_records =
      db.salary_records ∧
    (delete_salary_payment db1 adminId db.nextSalaryId).2.expenses = db.expenses := by
  have hany : db.salary_records.any
      (fun r => r.employee_id == eid && r.month_year == my) = false := by
    rw [List.any_eq_false]
    intro r hr
    have hno := hnopair r hr
    simp only [Bool.and_eq_true, beq_iff_eq]
    tauto
  have hadd : add_salary_payment db adminId eid (some my) (some amt) pm notes =
      (.ok "Salary payment recorded successfully",
        { db with
            salary_records := db.salary_records ++
              [{ id := db.nextSalaryId, employee_id := eid, month_year := my,
                 amount_paid := amt, payment_method := pm, notes := notes }],
            expenses := db.expenses ++
              [{ id := db.nextExpenseId, item_name := salaryExpenseName emp,
                 price := amt, date := ⟨ym.1, ym.2, 1⟩, user_id := adminId }],
            nextSalaryId := db.nextSalaryId + 1,
            nextExpenseId := db.nextExpenseId + 1 }) := by
    simp only [add_salary_payment, hemp, hany, hparse]
    rw [if_neg Bool.false_ne_true]
  rw [hadd] at hadd1
  injection hadd1 with hr1 hr2
  subst hr2
  have hfindsr : (db.salary_records ++
      [({ id := db.nextSalaryId, employee_id := eid, month_year := my,
          amount_paid := amt, payment_method := pm, notes := notes } : SalaryRecord)]).find?
        (fun r => r.id == db.nextSalaryId) =
      some { id := db.nextSalaryId, employee_id := eid, month_year := my,
             amount_paid := amt, payment_method := pm, notes := notes } := by
    rw [List.find?_append]
    have h1 : db.salary_records.find? (fun r => r.id == db.nextSalaryId) = none := by
      rw [List.find?_eq_none]
      intro r hr
      simpa using hfresh r hr
    rw [h1]
    simp
  have hdel : delete_salary_payment
      { db with
          salary_records := db.salary_records ++
            [{ id := db.nextSalaryId, employee_id := eid, month_year := my,
               amount_paid := amt, payment_method := pm, notes := notes }],
          expenses := db.expenses ++
            [{ id := db.nextExpenseId, item_name := salaryExpenseName emp,
               price := amt, date := ⟨ym.1, ym.2, 1⟩, user_id := adminId }],
          nextSalaryId := db.nextSalaryId + 1,
          nextExpenseId := db.nextExpenseId + 1 }
      adminId db.nextSalaryId =
      (.ok "Salary payment deleted successfully",
        { db with nextSalaryId := db.nextSalaryId + 1,
                  nextExpenseId := db.nextExpenseId + 1 }) := by
    simp only [delete_salary_payment]
    simp only [hfindsr]
    simp only [hemp]
    have herase : (db.expenses ++
        [({ id := db.nextExpenseId, item_name := salaryExpenseName emp,
            price := amt, date := ⟨ym.1, ym.2, 1⟩, user_id := adminId } : Expense)]).eraseP
          (fun ex => ex.item_name == salaryExpenseName emp && ex.price == amt
            && ex.user_id == adminId) = db.expenses := by
      rw [List.eraseP_append_right]
      · simp
      · intro b hb hcontra
        rw [Bool.and_eq_true, Bool.and_eq_true] at hcontra
        exact hnomatch b hb
          ⟨beq_iff_eq.mp hcontra.1.1, beq_iff_eq.mp hcontra.1.2, beq_iff_eq.mp hcontra.2⟩
    have hfilter : (db.salary_records ++
        [({ id := db.nextSalaryId, employee_id := eid, month_year := my,
            amount_paid := amt, payment_method := pm, notes := notes } : SalaryRecord)]).filter
          (fun r => r.id != db.nextSalaryId) = db.salary_records := by
      rw [List.filter_append]
      have hfa : db.salary_records.filter (fun r => r.id != db.nextSalaryId) =
          db.salary_records :=
        List.filter_eq_self.mpr (fun r hr => by simpa using hfresh r hr)
      rw [hfa]
      simp
    rw [herase, hfilter]
  rw [hdel]
  exact ⟨rfl, rfl, rfl, rfl, rfl⟩

/-- The post-recording state for the C7 witness. -/
def dbC7after : DB :=
  { rooms := [], students := [], fee_records := [],
    employees := [⟨1, "Ali", "Cook", 30000, "active"⟩],
    salary_records := [⟨1, 1, "2025-01", 100, "cash", ""⟩],
    expenses := [⟨1, "Salary paid to Ali (Cook)", 100, ⟨2025, 1, 1⟩, 1⟩],
    nextStudentId := 1, nextFeeRecordId := 1, nextSalaryId := 2, nextExpenseId := 2 }

/-- Witness for C7: when the SAME admin (id 1) deletes the payment it
just recorded, both the salary record and the synthesized expense are
removed. -/
theorem C7_salary_delete_roundtrip_witness :
    (delete_salary_payment dbC7after 1 1).2.salary_records = [] ∧
    (delete_salary_payment dbC7after 1 1).2.expenses = [] := by
  have h := C7_salary_delete_roundtrip dbC7 dbC7after 1 1 "2025-01" 100 "cash" ""
    ⟨1, "Ali", "Cook", 30000, "active"⟩ (2025, 1)
    (by decide) (by decide) (by simp [dbC7]) (by simp [dbC7]) (by simp [dbC7]) (by decide)
  exact ⟨h.2.2.2.1, h.2.2.2.2⟩

/-- The database for the C8 scenarios: room 1 with capacity 3, no
students yet. -/
def dbC8 : DB :=
  { rooms := [⟨1, 101, 3⟩], students := [], fee_records := [], employees := [],
    salary_records := [], expenses := [], nextStudentId := 1, nextFeeRecordId := 1,
    nextSalaryId := 1, nextExpenseId := 1 }

/-- **C8 counterexample**: two rows share the name `"X"`; the first row
fails (non-positive fee), so its name is never remembered, and the
second occurrence of the duplicated name is NOT rejected — it is the one
row persisted.  This contradicts the claim that a name duplicated within
the same file is rejected on its second occurrence. -/
theorem C8_bulk_import_counterexample :
    effName ⟨"X", some (-5), some 1⟩ = effName ⟨"X", some 100, some 1⟩ ∧
    (bulk_upload_students dbC8
        [⟨"X", some (-5), some 1⟩, ⟨"X", some 100, some 1⟩]).2.errors =
      ["Row 2: fee must be greater than 0"] ∧
    (bulk_upload_students dbC8
        [⟨"X", some (-5), some 1⟩, ⟨"X", some 100, some 1⟩]).2.success_count = 1 ∧
    (bulk_upload_students dbC8
        [⟨"X", some (-5), some 1⟩, ⟨"X", some 100, some 1⟩]).1.students =
      [⟨1, "X", 100, 1, "active", "unpaid", none⟩] := by
  refine ⟨by decide, by decide, by decide, by decide⟩

/-- **C8** (amended): a bulk import of N rows processes every row
(failures are skipped, never aborting the batch): the reported
`total_processed` is N, `success_count` plus the number of errors is N,
exactly `success_count` student rows are persisted, and the error list
is exactly one entry `"Row {i+2}: msg"` per failing data row i (0-based,
offset by the header row), in order; a name duplicated within the file
is rejected on a later occurrence provided an earlier occurrence was
successfully inserted (names of failed rows are not remembered). -/
theorem C8_bulk_import_accounting
    (db : DB) (rows : List BulkRow)
    (pre mid : List BulkRow) (r1 r2 : BulkRow)
    (heq : effName r2 = effName r1)
    (hsucc : (bulkStep (bulkRun db [] pre).1 (bulkRun db [] pre).2 r1).2.2 = none) :
    (bulk_upload_students db rows).2.total_processed = rows.length ∧
    (bulk_upload_students db rows).2.success_count
      + (bulk_upload_students db rows).2.errors.length = rows.length ∧
    (bulk_upload_students db rows).1.students.length
      = db.students.length + (bulk_upload_students db rows).2.success_count ∧
    (bulk_upload_students db rows).2.errors
      = ((bulkOutcomes db [] rows).enumFrom 0).filterMap
          (fun p => p.2.map (fun m => rowErr p.1 m)) ∧
    (bulkStep
        (bulkRun (bulkStep (bulkRun db [] pre).1 (bulkRun db [] pre).2 r1).1
          (bulkStep (bulkRun db [] pre).1 (bulkRun db [] pre).2 r1).2.1 mid).1
        (bulkRun (bulkStep (bulkRun db [] pre).1 (bulkRun db [] pre).2 r1).1
          (bulkStep (bulkRun db [] pre).1 (bulkRun db [] pre).2 r1).2.1 mid).2
        r2).2.2 = some "duplicate name within file" := by
  obtain ⟨h1, h2, h3, h4⟩ := bulkLoop_spec rows db [] 0
  refine ⟨h1, h2, h3, h4, ?_⟩
  have hs := bulkStep_success_state (bulkRun db [] pre).1 (bulkRun db [] pre).2 r1 hsucc
  have hmem1 : effName r1 ∈ (bulkStep (bulkRun db [] pre).1 (bulkRun db [] pre).2 r1).2.1 := by
    rw [hs.2.1]
    exact List.mem_cons_self _ _
  have hmem2 : effName r1 ∈
      (bulkRun (bulkStep (bulkRun db [] pre).1 (bulkRun db [] pre).2 r1).1
        (bulkStep (bulkRun db [] pre).1 (bulkRun db [] pre).2 r1).2.1 mid).2 :=
    bulkRun_seen_mono mid _ _ _ hmem1
  have hdup := bulkStep_dup
    (bulkRun (bulkStep (bulkRun db [] pre).1 (bulkRun db [] pre).2 r1).1
      (bulkStep (bulkRun db [] pre).1 (bulkRun db [] pre).2 r1).2.1 mid).1
    (bulkRun (bulkStep (bulkRun db [] pre).1 (bulkRun db [] pre).2 r1).1
      (bulkStep (bulkRun db [] pre).1 (bulkRun db [] pre).2 r1).2.1 mid).2
    r2 (by rw [heq]; exact hmem2) (by rw [heq]; exact hs.2.2.1) (by rw [heq]; exact hs.2.2.2)
  rw [hdup]

/-- Witness for C8 at a concrete state: importing one valid row `"Y"`
processes one row, and a later row with the same (trimmed) name would be
rejected as a duplicate. -/
theorem C8_bulk_import_accounting_witness :
    (bulk_upload_students dbC8 [⟨"Y", some 100, some 1⟩]).2.total_processed = 1 ∧
    (bulkStep
        (bulkRun (bulkStep (bulkRun dbC8 [] []).1 (bulkRun dbC8 [] []).2
            ⟨"Y", some 100, some 1⟩).1
          (bulkStep (bulkRun dbC8 [] []).1 (bulkRun dbC8 [] []).2
            ⟨"Y", some 100, some 1⟩).2.1 []).1
        (bulkRun (bulkStep (bulkRun dbC8 [] []).1 (bulkRun dbC8 [] []).2
            ⟨"Y", some 100, some 1⟩).1
          (bulkStep (bulkRun dbC8 [] []).1 (bulkRun dbC8 [] []).2
            ⟨"Y", some 100, some 1⟩).2.1 []).2
        ⟨"Y", some 50, some 1⟩).2.2 = some "duplicate name within file" := by
  have h := C8_bulk_import_accounting dbC8 [⟨"Y", some 100, some 1⟩] [] []
    ⟨"Y", some 100, some 1⟩ ⟨"Y", some 50, some 1⟩ (by decide) (by decide)
  exact ⟨h.1, h.2.2.2.2⟩

/-- **C10**: `Student.remaining_fee` equals
`max(0, fee − current-month payment total)`: it is never negative, and a
student whose month's payments exceed the fee is reported with remaining
fee 0, not a credit. -/
theorem C10_remaining_fee_clamped (recs : List FeeRecord) (sid : Int) (fee : ℚ) (m y : Nat) :
    remaining_fee recs sid fee m y = max 0 (fee - sumMonth recs sid m y) ∧
    0 ≤ remaining_fee recs sid fee m y ∧
    remaining_fee recs sid fee m y =
      (if fee ≤ sumMonth recs sid m y then 0 else fee - sumMonth recs sid m y) := by
  refine ⟨rfl, le_max_left _ _, ?_⟩
  unfold remaining_fee
  split_ifs with h
  · exact max_eq_left (by linarith)
  · exact max_eq_right (by linarith)

end Hostel
